import Mathlib

/-!
Verification of the BrightMinds topic-indicator scoring engine.

This file shallowly embeds `backend/topic_indicator_computor.js` (together
with the `Topic` schema from `models/topic_model.js`) into Lean and proves
properties of the embedding.

Modelling conventions:
* JavaScript numbers holding metric values are modelled as `ℚ` where the
  source only moves them around, and as `ℝ` where the source applies
  `Math.log10` (modelled by the real logarithm `Real.logb 10`).
* `axios` calls are modelled by a `Provider` oracle returning
  `Except String _` (a rejected promise is `Except.error msg`); every call
  issued is recorded in a `List FetchCall` trace, so that "how many external
  provider calls are made" is an observable of the embedding.
* The ambient clock's derived date range (`getLast12MonthsRange`, source
  lines 30-40, a pure string formatting of the current date) is abstracted
  as an explicit `DateRange` input; its four fields correspond exactly to
  the four fields returned by the source function.
* Mongoose documents are immutable values here: `topic.save()` becomes a
  `save : Topic → Except String Unit` oracle, and mutation of a document is
  a functional record update.
* `process.env.NODE_ENV === 'test'` is the explicit boolean `isTestEnv`.
-/

namespace BrightMinds

/-- One external HTTP call, identified by endpoint and lookup key, exactly as
issued by the four `axios.get` sites of the source file. -/
inductive FetchCall : Type where
  | openAlexTopic (openalexID : String)
  | openAlexWorks (openalexID : String) (startDate endDate : String)
  | wikiSearch (topicName : String)
  | wikiPageviews (title : String) (startCompact endCompact : String)
deriving DecidableEq, Repr

/-- Result of `GET /topics/{id}` as consumed by the source (source lines
70-75: `cited_by_count || 0` and `works_count || 0`; the `|| 0` defaulting of
absent JSON fields is folded into the oracle, which returns parsed numbers). -/
structure OAMetrics where
  citedByCount : ℚ
  worksCount : ℚ
deriving DecidableEq, Repr

/-- Oracle for the three logical external providers.  A rejected promise /
thrown error is `Except.error msg`.  `wikiSearch` returns the first search
result title (`none` when the result list is empty or the title is falsy,
source line 110-113); `wikiPageviews` returns the per-item view counts
(`item.views || 0` folded into the oracle). -/
structure Provider where
  openAlexTopic : String → Except String OAMetrics
  openAlexWorksCount : String → String → String → Except String ℚ
  wikiSearch : String → Except String (Option String)
  wikiPageviews : String → String → String → Except String (List ℚ)

/-- The four values returned by `getLast12MonthsRange` (source lines 30-40). -/
structure DateRange where
  startDate : String
  endDate : String
  startCompact : String
  endCompact : String
deriving DecidableEq, Repr

/-- `metrics.openalex` block of the Topic schema (`topic_model.js`).
Timestamps (`Date` or `null`) are modelled as `Option ℚ` epoch values. -/
structure OpenAlexMetricsBlock where
  citedByCount : ℚ := 0
  worksCount : ℚ := 0
  worksLast12Months : ℚ := 0
  lastFetchedAt : Option ℚ := none
  lastWorksFetchedAt : Option ℚ := none
deriving DecidableEq, Repr

/-- `metrics.wikipedia` block of the Topic schema. -/
structure WikipediaMetricsBlock where
  title : Option String := none
  views12Months : ℚ := 0
  lastFetchedAt : Option ℚ := none
deriving DecidableEq, Repr

/-- `metrics` snapshot of the Topic schema: per-source cached values and
freshness timestamps, plus the shared `lastError` / `backoffUntil` pair. -/
structure TopicMetrics where
  openalex : OpenAlexMetricsBlock := {}
  wikipedia : WikipediaMetricsBlock := {}
  lastComputedAt : Option ℚ := none
  lastError : Option String := none
  backoffUntil : Option ℚ := none
deriving DecidableEq, Repr

/-- A Topic document (`topic_model.js`).  The `articleIDs`/`castIDs`
reference arrays are irrelevant to the scoring engine and omitted.
`openalexID` is optional in the schema, hence `Option String`. -/
structure Topic where
  name : String
  departmentName : String := ""
  articleCount : ℚ := 0
  castCount : ℚ := 0
  openalexID : Option String := none
  activity : ℝ := 0
  impact : ℝ := 0
  metrics : TopicMetrics := {}

/-- JavaScript truthiness of an optional string (`undefined`, `null` and the
empty string are falsy). -/
def strTruthy : Option String → Bool
  | none => false
  | some s => decide (s ≠ "")

/-- Embedding of `estimateCitations12m` (source lines 42-48).  A JS numeric
argument is falsy exactly when it is `0` (schema defaults and the local
zero-initialisation in the caller make absent values `0` before this point). -/
def estimateCitations12m (citedByCount worksCount works12m : ℚ) : ℚ :=
  if worksCount = 0 ∨ citedByCount = 0 ∨ works12m = 0 then 0
  else works12m * (citedByCount / worksCount)

/-- Embedding of `Array.prototype.findIndex` with predicate
`(item) => item === value` (source line 57): the first index holding
`value`, or `-1` when `value` does not occur. -/
def jsFindIndex {α : Type} [DecidableEq α] : List α → α → ℤ
  | [], _ => -1
  | a :: rest, v =>
    if a = v then 0
    else if jsFindIndex rest v = -1 then -1 else jsFindIndex rest v + 1

/-- Embedding of `Array.prototype.findLastIndex` with the same predicate
(source line 58): the last index holding `value`, or `-1`. -/
def jsFindLastIndex {α : Type} [DecidableEq α] : List α → α → ℤ
  | [], _ => -1
  | a :: rest, v =>
    if jsFindLastIndex rest v = -1 then (if a = v then 0 else -1)
    else jsFindLastIndex rest v + 1

/-- Embedding of `percentileRank` (source lines 50-62).  The arithmetic
`(firstIndex + lastIndex) / 2 / (length - 1) * 100` is JS float arithmetic on
values that are exact here, so it is carried out in `ℚ`.  The function is
generic in the element type (JS `===` becomes decidable equality); the batch
instantiates it at `ℝ`. -/
def percentileRank {α : Type} [DecidableEq α] (sortedValues : List α) (value : α) : ℚ :=
  if sortedValues.length = 0 then 0
  else if sortedValues.length = 1 then 100
  else
    let firstIndex := jsFindIndex sortedValues value
    let lastIndex := jsFindLastIndex sortedValues value
    let rank : ℚ := ((firstIndex + lastIndex : ℤ) : ℚ) / 2
    rank / ((sortedValues.length : ℚ) - 1) * 100

/-- Embedding of `Number(x.toFixed(2))` (source lines 250-251): rounding to
two decimal places (half away from zero differences with JS floats do not
matter for any property proved here). -/
def round2 (q : ℚ) : ℚ := (round (q * 100) : ℤ) / 100

/-- Embedding of `log10p` (source line 19): `Math.log10(value + 1)`, with
`Math.log10` modelled by the real base-10 logarithm. -/
noncomputable def log10p (value : ℝ) : ℝ := Real.logb 10 (value + 1)

/-- Weights of `INDICATOR_WEIGHTS.impact` (source lines 14-17). -/
structure ImpactWeights where
  citations : ℝ
  works : ℝ
  wikiViews : ℝ

/-- Weights of `INDICATOR_WEIGHTS.activity` (source lines 14-17). -/
structure ActivityWeights where
  works12m : ℝ
  citations12m : ℝ
  wikiViews : ℝ

/-- The full `INDICATOR_WEIGHTS` constant (source lines 14-17). -/
structure IndicatorWeights where
  impact : ImpactWeights
  activity : ActivityWeights

/-- Source lines 14-17 verbatim. -/
def INDICATOR_WEIGHTS : IndicatorWeights :=
  { impact := { citations := 0.55, works := 0.25, wikiViews := 0.2 }
    activity := { works12m := 0.45, citations12m := 0.35, wikiViews := 0.2 } }

/-- Embedding of `fetchOpenAlexTopicMetrics` (source lines 64-77).  The
source guard `if (!openalexID || isTestEnv)` short-circuits with zero counts
and no network call; otherwise one `GET /topics/{id}` call is issued and its
error, if any, propagates to the caller (the source has no try/catch here). -/
def fetchOpenAlexTopicMetrics (isTestEnv : Bool) (p : Provider)
    (openalexID : Option String) : Except String OAMetrics × List FetchCall :=
  match openalexID with
  | none => (Except.ok ⟨0, 0⟩, [])
  | some id =>
    if id = "" ∨ isTestEnv then (Except.ok ⟨0, 0⟩, [])
    else (p.openAlexTopic id, [FetchCall.openAlexTopic id])

/-- Embedding of `fetchOpenAlexWorksCountLast12Months` (source lines 79-93):
same guard, then one `GET /works` call filtered by id and date range
(`meta.count || 0` folded into the oracle). -/
def fetchOpenAlexWorksCountLast12Months (isTestEnv : Bool) (p : Provider)
    (openalexID : Option String) (startDate endDate : String) :
    Except String ℚ × List FetchCall :=
  match openalexID with
  | none => (Except.ok 0, [])
  | some id =>
    if id = "" ∨ isTestEnv then (Except.ok 0, [])
    else (p.openAlexWorksCount id startDate endDate,
          [FetchCall.openAlexWorks id startDate endDate])

/-- Embedding of `fetchWikipediaViews12Months` (source lines 94-125).  The
whole body after the guard sits in a `try` whose `catch` logs a warning and
returns `0`, so this function never propagates an error.  A search hit
resolves a title and triggers the pageviews call, whose daily items are
summed (`items.reduce((sum, item) => sum + (item.views || 0), 0)`). -/
def fetchWikipediaViews12Months (isTestEnv : Bool) (p : Provider)
    (topicName : String) (startCompact endCompact : String) :
    ℚ × List FetchCall :=
  if topicName = "" ∨ isTestEnv then (0, [])
  else
    match p.wikiSearch topicName with
    | Except.error _ => (0, [FetchCall.wikiSearch topicName])
    | Except.ok none => (0, [FetchCall.wikiSearch topicName])
    | Except.ok (some title) =>
      match p.wikiPageviews title startCompact endCompact with
      | Except.error _ =>
        (0, [FetchCall.wikiSearch topicName,
             FetchCall.wikiPageviews title startCompact endCompact])
      | Except.ok items =>
        (items.foldl (· + ·) 0,
         [FetchCall.wikiSearch topicName,
          FetchCall.wikiPageviews title startCompact endCompact])

/-- The five fields of the `metrics` object returned by
`computeRawIndicatorsForTopic` (source lines 181-187). -/
structure Signals where
  citedByCount : ℚ
  worksCount : ℚ
  worksLast12Months : ℚ
  wikiViews12Months : ℚ
  estimatedCitations12Months : ℚ
deriving DecidableEq, Repr

/-- Signal-resolution part of `computeRawIndicatorsForTopic` (source lines
127-165): locals initialised to `0`; if `topic.openalexID` is truthy, the two
OpenAlex fetches run, each in its own `try` whose `catch` logs and keeps the
zero-initialised locals; then the Wikipedia fetch (which absorbs its own
errors) and `estimateCitations12m`.  Note that the source reads nothing from
`topic.metrics`: the cached snapshot, its freshness timestamps and
`backoffUntil` are never consulted. -/
def resolveSignals (isTestEnv : Bool) (p : Provider) (range : DateRange)
    (topic : Topic) : Signals × List FetchCall :=
  let oaPart : (ℚ × ℚ × ℚ) × List FetchCall :=
    if strTruthy topic.openalexID then
      let r1 := fetchOpenAlexTopicMetrics isTestEnv p topic.openalexID
      let r2 := fetchOpenAlexWorksCountLast12Months isTestEnv p topic.openalexID
        range.startDate range.endDate
      let citedByCount : ℚ := match r1.1 with
        | Except.ok m => m.citedByCount
        | Except.error _ => 0
      let worksCount : ℚ := match r1.1 with
        | Except.ok m => m.worksCount
        | Except.error _ => 0
      let worksLast12Months : ℚ := match r2.1 with
        | Except.ok n => n
        | Except.error _ => 0
      ((citedByCount, worksCount, worksLast12Months), r1.2 ++ r2.2)
    else ((0, 0, 0), [])
  let wiki := fetchWikipediaViews12Months isTestEnv p topic.name
    range.startCompact range.endCompact
  let citedByCount := oaPart.1.1
  let worksCount := oaPart.1.2.1
  let worksLast12Months := oaPart.1.2.2
  let estimated := estimateCitations12m citedByCount worksCount worksLast12Months
  (⟨citedByCount, worksCount, worksLast12Months, wiki.1, estimated⟩,
   oaPart.2 ++ wiki.2)

/-- Impact composite (source lines 167-170). -/
noncomputable def impactRawOf (s : Signals) : ℝ :=
  INDICATOR_WEIGHTS.impact.citations * log10p (s.citedByCount : ℝ)
  + INDICATOR_WEIGHTS.impact.works * log10p (s.worksCount : ℝ)
  + INDICATOR_WEIGHTS.impact.wikiViews * log10p (s.wikiViews12Months : ℝ)

/-- Activity composite (source lines 172-175). -/
noncomputable def activityRawOf (s : Signals) : ℝ :=
  INDICATOR_WEIGHTS.activity.works12m * log10p (s.worksLast12Months : ℝ)
  + INDICATOR_WEIGHTS.activity.citations12m * log10p (s.estimatedCitations12Months : ℝ)
  + INDICATOR_WEIGHTS.activity.wikiViews * log10p (s.wikiViews12Months : ℝ)

/-- Return value of `computeRawIndicatorsForTopic` (source lines 177-188). -/
structure RawIndicators where
  impactRaw : ℝ
  activityRaw : ℝ
  metrics : Signals

/-- Embedding of `computeRawIndicatorsForTopic` (source lines 127-188):
resolve the four signals (with the per-source catches above), then form the
two weighted log-composites.  The call trace is returned alongside. -/
noncomputable def computeRawIndicatorsForTopic (isTestEnv : Bool) (p : Provider)
    (range : DateRange) (topic : Topic) : RawIndicators × List FetchCall :=
  let r := resolveSignals isTestEnv p range topic
  (⟨impactRawOf r.1, activityRawOf r.1, r.1⟩, r.2)

/-- Embedding of `computeImpactForTopic` (source lines 208-221): compute raw
indicators, assign them to `topic.impact` / `topic.activity` (nothing else on
the document is written — in particular `topic.metrics` is untouched), save;
the surrounding `try` turns any save failure into a logged error and a `null`
return. -/
noncomputable def computeImpactForTopic (isTestEnv : Bool) (p : Provider)
    (range : DateRange) (save : Topic → Except String Unit) (topic : Topic) :
    Option Topic × List FetchCall :=
  let r := computeRawIndicatorsForTopic isTestEnv p range topic
  let updated := { topic with impact := r.1.impactRaw, activity := r.1.activityRaw }
  match save updated with
  | Except.ok _ => (some updated, r.2)
  | Except.error _ => (none, r.2)

/-- Store oracle: `Topic.find()` and per-document `save()` (both can fail
with a persistence error). -/
structure Store where
  find : Except String (List Topic)
  save : Topic → Except String Unit

/-- Observable outcome of one batch run: which documents were successfully
saved (in order), the external calls issued, and the error caught by the
batch-level `catch` (source lines 255-257), if any. -/
structure BatchOutcome where
  saved : List Topic
  calls : List FetchCall
  failed : Option String

/-- Save phase of the batch (second loop, source lines 246-252): documents
are saved one by one; a save failure throws, which the batch-level `catch`
absorbs — so the documents saved before the failure keep their writes and
everything from the failing document on is skipped. -/
def saveEntries (save : Topic → Except String Unit) : List Topic →
    List Topic × Option String
  | [] => ([], none)
  | t :: rest =>
    match save t with
    | Except.ok _ =>
      let r := saveEntries save rest
      (t :: r.1, r.2)
    | Except.error e => ([], some e)

/-- Normalisation pass of the batch (source lines 243-251): sort the raw
impact and activity values ascending (`.sort((a, b) => a - b)`), then give
each topic the two-decimal-rounded percentile rank of its own raw value. -/
noncomputable def normalizedTopics (isTestEnv : Bool) (p : Provider)
    (range : DateRange) (topics : List Topic) : List Topic :=
  let rawResults := topics.map
    (fun t => (t, computeRawIndicatorsForTopic isTestEnv p range t))
  let impactValues :=
    (rawResults.map (fun x => x.2.1.impactRaw)).insertionSort (· ≤ ·)
  let activityValues :=
    (rawResults.map (fun x => x.2.1.activityRaw)).insertionSort (· ≤ ·)
  rawResults.map (fun x =>
    { x.1 with
      impact := ((round2 (percentileRank impactValues x.2.1.impactRaw) : ℚ) : ℝ)
      activity := ((round2 (percentileRank activityValues x.2.1.activityRaw) : ℚ) : ℝ) })

/-- Embedding of `computeImpactForAllTopics` (source lines 228-259).  The
whole body sits in a single `try`: a failing `Topic.find()` is caught and
logged (`failed` records it) with nothing computed; otherwise every topic's
raw indicators are computed (this loop cannot throw — all provider failures
are absorbed inside `computeRawIndicatorsForTopic`), then the normalisation
and save loop runs until it finishes or a save throws into the same `catch`.
There is no run-scoped cache: each topic performs its own fetches, so the
trace is the concatenation of the per-topic traces. -/
noncomputable def computeImpactForAllTopics (isTestEnv : Bool) (p : Provider)
    (range : DateRange) (store : Store) : BatchOutcome :=
  match store.find with
  | Except.error e => ⟨[], [], some e⟩
  | Except.ok topics =>
    let allCalls :=
      (topics.map (fun t => (computeRawIndicatorsForTopic isTestEnv p range t).2)).flatten
    let sf := saveEntries store.save (normalizedTopics isTestEnv p range topics)
    ⟨sf.1, allCalls, sf.2⟩

/-! ### Concrete fixtures used by witnesses and counterexamples -/

/-- A fixed date range, standing for one run's `getLast12MonthsRange()`. -/
def range0 : DateRange :=
  { startDate := "2024-10-11", endDate := "2025-10-11"
    startCompact := "20241011", endCompact := "20251011" }

/-- A fixed "current time" epoch value used for freshness timestamps. -/
def NOW0 : ℚ := 1760140800

/-- A provider on which every lookup succeeds, returning the same values as
the repository's own test fixture (`T123`: 1000 citations, 100 works, 20
recent works, 1500 page views; title resolution echoes the query). -/
def P_OK : Provider :=
  { openAlexTopic := fun _ => Except.ok ⟨1000, 100⟩
    openAlexWorksCount := fun _ _ _ => Except.ok 20
    wikiSearch := fun q => Except.ok (some q)
    wikiPageviews := fun _ _ _ => Except.ok [1500] }

/-- A provider on which every lookup fails. -/
def P_FAIL : Provider :=
  { openAlexTopic := fun _ => Except.error "OpenAlex down"
    openAlexWorksCount := fun _ _ _ => Except.error "OpenAlex down"
    wikiSearch := fun _ => Except.error "Wikipedia down"
    wikiPageviews := fun _ _ _ => Except.error "Wikipedia down" }

/-- A provider whose title search finds nothing (and whose other endpoints
fail, which no test below reaches). -/
def P_NOTITLE : Provider :=
  { openAlexTopic := fun _ => Except.error "unreachable"
    openAlexWorksCount := fun _ _ _ => Except.error "unreachable"
    wikiSearch := fun _ => Except.ok none
    wikiPageviews := fun _ _ _ => Except.error "unreachable" }

/-- The repository test's fresh-cache fixture: every per-source freshness
timestamp equals the current time `NOW0` (so the cache is current under any
time-to-live policy) and all cached values are populated. -/
def T_FRESH : Topic :=
  { name := "Cached Topic"
    departmentName := "Physics"
    openalexID := some "T-CACHED"
    metrics :=
      { openalex := { citedByCount := 500, worksCount := 50, worksLast12Months := 5
                      lastFetchedAt := some NOW0, lastWorksFetchedAt := some NOW0 }
        wikipedia := { title := some "Cached Topic", views12Months := 2500
                       lastFetchedAt := some NOW0 } } }

/-- A topic with an external key and no backoff window in effect. -/
def T_BACK : Topic :=
  { name := "Backoff Topic", departmentName := "Physics", openalexID := some "T1" }

/-- A topic carrying previously cached OpenAlex values (a prior successful
fetch) whose provider will now fail. -/
def T_STALE : Topic :=
  { name := "Stale Topic"
    departmentName := "Physics"
    openalexID := some "T1"
    metrics :=
      { openalex := { citedByCount := 500, worksCount := 50, worksLast12Months := 5
                      lastFetchedAt := some 1000, lastWorksFetchedAt := some 1000 } } }

/-- A topic with no external key, like the repository test's
"Obscure Topic": Wikipedia-only scoring with no search hit. -/
def T_OBSCURE : Topic :=
  { name := "Obscure Topic", departmentName := "Physics" }

/-- Two topics sharing the external key `T1`, and a store holding both with
an always-succeeding save. -/
def TA3 : Topic := { name := "Alpha", departmentName := "Physics", openalexID := some "T1" }

/-- Second topic sharing the external key `T1`. -/
def TB3 : Topic := { name := "Beta", departmentName := "Physics", openalexID := some "T1" }

/-- Store for the shared-key batch. -/
def S3 : Store := { find := Except.ok [TA3, TB3], save := fun _ => Except.ok () }

/-- Topic whose save will fail. -/
def T8A : Topic := { name := "A", departmentName := "Physics" }

/-- Topic whose save would succeed. -/
def T8B : Topic := { name := "B", departmentName := "Physics" }

/-- Store whose save fails exactly for the document named `A`. -/
def S8 : Store :=
  { find := Except.ok [T8A, T8B]
    save := fun t => if t.name = "A" then Except.error "disk full" else Except.ok () }

/-- Store whose population load fails. -/
def SERR : Store := { find := Except.error "db down", save := fun _ => Except.ok () }

/-! ### Helper lemmas about call traces and the save loop -/

/-- Occurrences in a flattened trace are summed per segment. -/
theorem count_flatten_eq_sum {α : Type} [DecidableEq α] (a : α) :
    ∀ (ls : List (List α)), ls.flatten.count a = (ls.map (fun l => l.count a)).sum := by
  intro ls
  induction ls with
  | nil => rfl
  | cons l rest ih => simp [List.count_append, ih]

/-- Summing an indicator over a list counts the satisfying elements. -/
theorem sum_map_ite_eq_countP {α : Type} (pr : α → Prop) [DecidablePred pr] :
    ∀ (l : List α), (l.map (fun t => if pr t then 1 else 0)).sum
      = l.countP (fun t => decide (pr t)) := by
  intro l
  induction l with
  | nil => rfl
  | cons t rest ih =>
    by_cases h : pr t
    · simp [List.countP_cons, h, ih]
      omega
    · simp [List.countP_cons, h, ih]

/-- The Wikipedia fetch never issues an OpenAlex-totals call. -/
theorem count_openAlexTopic_wiki (isTestEnv : Bool) (p : Provider)
    (name s e k : String) :
    (fetchWikipediaViews12Months isTestEnv p name s e).2.count
      (FetchCall.openAlexTopic k) = 0 := by
  rw [fetchWikipediaViews12Months]
  split
  · rfl
  · split <;> try rfl
    all_goals split <;> simp [List.count_cons]

/-- One signal resolution issues the OpenAlex-totals call for key `k` exactly
once when the topic carries that key, and never otherwise. -/
theorem count_openAlexTopic_resolve (p : Provider) (range : DateRange)
    (t : Topic) (k : String) (hk : k ≠ "") :
    (resolveSignals false p range t).2.count (FetchCall.openAlexTopic k)
      = if t.openalexID = some k then 1 else 0 := by
  rcases hoa : t.openalexID with _ | id
  · simp [resolveSignals, hoa, strTruthy, List.count_append,
      count_openAlexTopic_wiki]
  · by_cases hid : id = ""
    · subst hid
      simp [resolveSignals, hoa, strTruthy, List.count_append,
        count_openAlexTopic_wiki, Ne.symm hk]
    · simp only [resolveSignals, hoa, strTruthy]
      rw [if_pos (by simp [hid])]
      simp [fetchOpenAlexTopicMetrics, fetchOpenAlexWorksCountLast12Months, hid,
        List.count_append, List.count_cons, count_openAlexTopic_wiki]

/-- The save loop saves a prefix: everything when no save fails, otherwise
exactly the documents before the first failing save, which the store refused
with that error. -/
theorem saveEntries_facts (save : Topic → Except String Unit) :
    ∀ l : List Topic,
      ((saveEntries save l).2 = none → (saveEntries save l).1 = l)
      ∧ ((saveEntries save l).1 = l.take (saveEntries save l).1.length)
      ∧ (∀ e, (saveEntries save l).2 = some e →
          ∃ t, l.get? (saveEntries save l).1.length = some t
            ∧ save t = Except.error e) := by
  intro l
  induction l with
  | nil =>
    exact ⟨fun _ => rfl, rfl, fun e h => by simp [saveEntries] at h⟩
  | cons t rest ih =>
    cases hst : save t with
    | error e0 =>
      refine ⟨?_, ?_, ?_⟩
      · intro h
        simp only [saveEntries, hst] at h
        exact absurd h (by simp)
      · simp [saveEntries, hst]
      · intro e h
        simp only [saveEntries, hst] at h ⊢
        injection h with h1
        subst h1
        exact ⟨t, by simp, hst⟩
    | ok u =>
      refine ⟨?_, ?_, ?_⟩
      · intro h
        simp only [saveEntries, hst] at h ⊢
        rw [ih.1 h]
      · simp only [saveEntries, hst, List.length_cons, List.take_succ_cons]
        exact congrArg (List.cons t) ih.2.1
      · intro e h
        simp only [saveEntries, hst] at h ⊢
        simpa using ih.2.2 e h

/-! ### Helper lemmas about the index searches used by `percentileRank` -/

/-- A value that does not occur yields first index `-1`, as in JS. -/
theorem jsFindIndex_of_not_mem {α : Type} [DecidableEq α] {l : List α} {v : α}
    (h : v ∉ l) : jsFindIndex l v = -1 := by
  induction l with
  | nil => rfl
  | cons a rest ih =>
    have hav : a ≠ v := fun hav => h (hav ▸ List.mem_cons_self a rest)
    have hrest : v ∉ rest := fun hm => h (List.mem_cons_of_mem a hm)
    simp [jsFindIndex, hav, ih hrest]

/-- A value that does not occur yields last index `-1`, as in JS. -/
theorem jsFindLastIndex_of_not_mem {α : Type} [DecidableEq α] {l : List α} {v : α}
    (h : v ∉ l) : jsFindLastIndex l v = -1 := by
  induction l with
  | nil => rfl
  | cons a rest ih =>
    have hav : a ≠ v := fun hav => h (hav ▸ List.mem_cons_self a rest)
    have hrest : v ∉ rest := fun hm => h (List.mem_cons_of_mem a hm)
    simp [jsFindLastIndex, hav, ih hrest]

/-- In a sorted list, the first index of an occurring value is the number of
strictly smaller elements. -/
theorem jsFindIndex_sorted {α : Type} [LinearOrder α] {l : List α}
    (hs : l.Sorted (· ≤ ·)) {v : α} (hv : v ∈ l) :
    jsFindIndex l v = (l.countP (fun a => decide (a < v)) : ℤ) := by
  induction l with
  | nil => cases hv
  | cons a rest ih =>
    rw [List.sorted_cons] at hs
    by_cases hav : a = v
    · subst hav
      have hzero : rest.countP (fun b => decide (b < a)) = 0 :=
        List.countP_eq_zero.mpr (fun b hb => by simpa using not_lt.mpr (hs.1 b hb))
      simp [jsFindIndex, List.countP_cons, hzero]
    · have hv' : v ∈ rest := by
        rcases List.mem_cons.mp hv with h | h
        · exact absurd h.symm hav
        · exact h
      have hir := ih hs.2 hv'
      have hne : jsFindIndex rest v ≠ -1 := by rw [hir]; omega
      have hab : a < v := lt_of_le_of_ne (hs.1 v hv') hav
      rw [jsFindIndex, if_neg hav, if_neg hne, hir, List.countP_cons]
      simp [hab]

/-- In a sorted list, the last index of an occurring value is the number of
elements less than or equal to it, minus one. -/
theorem jsFindLastIndex_sorted {α : Type} [LinearOrder α] {l : List α}
    (hs : l.Sorted (· ≤ ·)) {v : α} (hv : v ∈ l) :
    jsFindLastIndex l v = (l.countP (fun a => decide (a ≤ v)) : ℤ) - 1 := by
  induction l with
  | nil => cases hv
  | cons a rest ih =>
    rw [List.sorted_cons] at hs
    by_cases hv' : v ∈ rest
    · have hir := ih hs.2 hv'
      have hpos : 0 < rest.countP (fun a => decide (a ≤ v)) :=
        List.countP_pos_iff.mpr ⟨v, hv', by simp⟩
      have hne : jsFindLastIndex rest v ≠ -1 := by rw [hir]; omega
      have hav : a ≤ v := hs.1 v hv'
      rw [jsFindLastIndex, if_neg hne, hir, List.countP_cons]
      simp [hav]
    · have hav : a = v := by
        rcases List.mem_cons.mp hv with h | h
        · exact h.symm
        · exact absurd h hv'
      subst hav
      have hrest : rest.countP (fun b => decide (b ≤ a)) = 0 :=
        List.countP_eq_zero.mpr (fun b hb hble => by
          have h1 : a ≤ b := hs.1 b hb
          have h2 : b ≤ a := by simpa using hble
          exact hv' (le_antisymm h2 h1 ▸ hb))
      rw [jsFindLastIndex, jsFindLastIndex_of_not_mem hv', if_pos rfl, if_pos rfl,
        List.countP_cons]
      simp [hrest]

/-- When a sorted list's minimum occurs exactly once, both index searches find
it at position `0`. -/
theorem jsFind_min_unique {α : Type} [LinearOrder α] {l : List α}
    (hs : l.Sorted (· ≤ ·)) {v : α} (hv : v ∈ l)
    (hmin : ∀ x ∈ l, v ≤ x) (hcount : l.count v = 1) :
    jsFindIndex l v = 0 ∧ jsFindLastIndex l v = 0 := by
  rcases l with _ | ⟨a, rest⟩
  · cases hv
  · rw [List.sorted_cons] at hs
    have hav : a = v := by
      rcases List.mem_cons.mp hv with h | h
      · exact h.symm
      · exact le_antisymm (hs.1 v h) (hmin a (List.mem_cons_self a rest))
    subst hav
    have hnr : a ∉ rest := by
      intro hm
      rw [List.count_cons_self] at hcount
      have := List.count_pos_iff.mpr hm
      omega
    exact ⟨by simp [jsFindIndex],
      by rw [jsFindLastIndex, jsFindLastIndex_of_not_mem hnr]; simp⟩

/-- When a sorted list's maximum occurs exactly once, both index searches find
it at the final position. -/
theorem jsFind_max_unique {α : Type} [LinearOrder α] {l : List α}
    (hs : l.Sorted (· ≤ ·)) {v : α}
    (hmax : ∀ x ∈ l, x ≤ v) (hcount : l.count v = 1) :
    jsFindIndex l v = (l.length : ℤ) - 1 ∧ jsFindLastIndex l v = (l.length : ℤ) - 1 := by
  induction l with
  | nil => simp at hcount
  | cons a rest ih =>
    rw [List.sorted_cons] at hs
    by_cases hav : a = v
    · subst hav
      have hrest : rest = [] := by
        rcases rest with _ | ⟨b, rb⟩
        · rfl
        · exfalso
          have h1 : a ≤ b := hs.1 b (List.mem_cons_self b rb)
          have h2 : b ≤ a := hmax b (List.mem_cons_of_mem a (List.mem_cons_self b rb))
          have hba : b = a := le_antisymm h2 h1
          rw [List.count_cons_self, hba, List.count_cons_self] at hcount
          omega
      subst hrest
      exact ⟨by simp [jsFindIndex], by simp [jsFindLastIndex]⟩
    · have hcr : rest.count v = 1 := by
        rwa [List.count_cons_of_ne (fun h => hav h.symm)] at hcount
      have hvr : v ∈ rest := List.count_pos_iff.mp (by omega)
      have := ih hs.2 (fun x hx => hmax x (List.mem_cons_of_mem a hx)) hcr
      have hrne : rest ≠ [] := List.ne_nil_of_mem hvr
      have hlen : 0 < rest.length := List.length_pos.mpr hrne
      refine ⟨?_, ?_⟩
      · have hne : jsFindIndex rest v ≠ -1 := by rw [this.1]; omega
        rw [jsFindIndex, if_neg hav, if_neg hne, this.1]
        simp
      · have hne : jsFindLastIndex rest v ≠ -1 := by rw [this.2]; omega
        rw [jsFindLastIndex, if_neg hne, this.2]
        simp

/-! ### Claim C4 -/

/-- C4 counterexample: in the sorted batch `[5, 5, 10]` the minimum value `5`
occurs twice, and `percentileRank` gives it the mid-rank
`((0 + 1) / 2) / 2 * 100 = 25`, not `0` — so the claim that the minimum of a
batch of size `n > 1` always ranks `0` is false. -/
theorem c4_counterexample :
    List.Sorted (· ≤ ·) [(5:ℚ), 5, 10]
    ∧ 1 < ([(5:ℚ), 5, 10]).length
    ∧ (5:ℚ) ∈ [(5:ℚ), 5, 10]
    ∧ (∀ x ∈ [(5:ℚ), 5, 10], 5 ≤ x)
    ∧ percentileRank [(5:ℚ), 5, 10] 5 = 25 := by
  refine ⟨by decide, by decide, by decide, by decide, ?_⟩
  norm_num [percentileRank, jsFindIndex, jsFindLastIndex]

/-- C4 (amended): `percentileRank` on an empty batch yields `0`; a batch of
size 1 ranks its only member `100`; ties receive identical averaged ranks
(for `[10, 20, 20, 30]` the tied value `20` ranks `50`); on a sorted batch an
occurring value's rank is the mid-rank `((#{x < v} + (#{x ≤ v} - 1)) / 2)`
scaled by `100 / (n - 1)`; the minimum of a batch of size `n > 1` ranks `0`
provided the minimum value occurs exactly once, and the maximum ranks `100`
provided the maximum value occurs exactly once (the unqualified claim for
tied extremes is refuted by `c4_counterexample`). -/
theorem c4_percentile_properties :
    (∀ (α : Type) [DecidableEq α] (v : α), percentileRank ([] : List α) v = 0)
    ∧ (∀ (α : Type) [DecidableEq α] (a : α), percentileRank [a] a = 100)
    ∧ percentileRank [(10:ℚ), 20, 20, 30] 20 = 50
    ∧ (∀ (α : Type) [LinearOrder α] (l : List α) (v : α),
        l.Sorted (· ≤ ·) → v ∈ l → 1 < l.length →
        percentileRank l v =
          (((l.countP (fun a => decide (a < v)) : ℚ)
            + ((l.countP (fun a => decide (a ≤ v)) : ℚ) - 1)) / 2)
          / ((l.length : ℚ) - 1) * 100)
    ∧ (∀ (α : Type) [LinearOrder α] (l : List α) (v : α),
        l.Sorted (· ≤ ·) → v ∈ l → 1 < l.length →
        (∀ x ∈ l, v ≤ x) → l.count v = 1 →
        percentileRank l v = 0)
    ∧ (∀ (α : Type) [LinearOrder α] (l : List α) (v : α),
        l.Sorted (· ≤ ·) → v ∈ l → 1 < l.length →
        (∀ x ∈ l, x ≤ v) → l.count v = 1 →
        percentileRank l v = 100) := by
  refine ⟨fun α _ v => rfl, fun α _ a => rfl, ?_, ?_, ?_, ?_⟩
  · norm_num [percentileRank, jsFindIndex, jsFindLastIndex]
  · intro α _ l v hs hv hlen
    have h0 : l.length ≠ 0 := by omega
    have h1 : l.length ≠ 1 := by omega
    rw [percentileRank, if_neg h0, if_neg h1, jsFindIndex_sorted hs hv,
      jsFindLastIndex_sorted hs hv]
    push_cast
    ring
  · intro α _ l v hs hv hlen hmin hcount
    have h0 : l.length ≠ 0 := by omega
    have h1 : l.length ≠ 1 := by omega
    obtain ⟨hf, hl⟩ := jsFind_min_unique hs hv hmin hcount
    rw [percentileRank, if_neg h0, if_neg h1, hf, hl]
    norm_num
  · intro α _ l v hs hv hlen hmax hcount
    have h0 : l.length ≠ 0 := by omega
    have h1 : l.length ≠ 1 := by omega
    have hq : ((l.length : ℚ) - 1) ≠ 0 := by
      have : (1:ℚ) < (l.length : ℚ) := by exact_mod_cast hlen
      linarith
    obtain ⟨hf, hl⟩ := jsFind_max_unique hs hmax hcount
    rw [percentileRank, if_neg h0, if_neg h1, hf, hl]
    push_cast
    field_simp

/-- C4 witness: the amended theorem applied to the concrete sorted batch
`[3, 5, 7]`, whose unique minimum ranks `0` and unique maximum ranks `100`. -/
theorem c4_percentile_properties_witness :
    percentileRank [(3:ℚ), 5, 7] 3 = 0 ∧ percentileRank [(3:ℚ), 5, 7] 7 = 100 :=
  ⟨c4_percentile_properties.2.2.2.2.1 ℚ [3, 5, 7] 3
      (by decide) (by decide) (by decide) (by decide) (by decide),
   c4_percentile_properties.2.2.2.2.2 ℚ [3, 5, 7] 7
      (by decide) (by decide) (by decide) (by decide) (by decide)⟩

/-! ### Claim C10 -/

/-- C10: for every sorted batch of size `n > 1` and every value that does not
occur in it, both index searches return `-1`, so `percentileRank` returns the
negative value `-100 / (n - 1)`, outside the advertised `[0, 100]` range. -/
theorem c10_missing_value_negative :
    ∀ (α : Type) [LinearOrder α] (l : List α) (v : α),
      l.Sorted (· ≤ ·) → 1 < l.length → v ∉ l →
      percentileRank l v = -100 / ((l.length : ℚ) - 1) := by
  intro α _ l v _ hlen hnm
  have h0 : l.length ≠ 0 := by omega
  have h1 : l.length ≠ 1 := by omega
  have hq : ((l.length : ℚ) - 1) ≠ 0 := by
    have : (1:ℚ) < (l.length : ℚ) := by exact_mod_cast hlen
    linarith
  rw [percentileRank, if_neg h0, if_neg h1, jsFindIndex_of_not_mem hnm,
    jsFindLastIndex_of_not_mem hnm]
  push_cast
  field_simp

/-- C10 witness: the value `3` does not occur in the sorted batch `[1, 2]`,
and its percentile rank evaluates to `-100 / (2 - 1) = -100`. -/
theorem c10_missing_value_negative_witness :
    percentileRank [(1:ℚ), 2] 3 = -100 := by
  have h := c10_missing_value_negative ℚ [1, 2] 3 (by decide) (by decide) (by decide)
  norm_num at h
  exact h

/-! ### Claim C1 -/

/-- C1: evaluation of the code on the repository's own fresh-cache fixture.
`T_FRESH` has every per-source freshness timestamp equal to the current time
(`NOW0`) and cached values `500/50/5/2500`, yet `computeRawIndicatorsForTopic`
issues all four external provider calls and uses the freshly fetched
`citedByCount = 1000` as the signal input — the cached snapshot value `500`
and the timestamps are never read.  The claim (zero provider calls, cached
values used as signal inputs) is the behaviour asserted by the repository's
test "computeImpactForTopic uses cached metrics when fresh and skips external
calls", which this code fails. -/
theorem c1_fresh_cache_code_behavior :
    T_FRESH.metrics.openalex.lastFetchedAt = some NOW0
    ∧ T_FRESH.metrics.openalex.lastWorksFetchedAt = some NOW0
    ∧ T_FRESH.metrics.wikipedia.lastFetchedAt = some NOW0
    ∧ T_FRESH.metrics.openalex.citedByCount = 500
    ∧ (computeRawIndicatorsForTopic false P_OK range0 T_FRESH).2 =
        [FetchCall.openAlexTopic "T-CACHED",
         FetchCall.openAlexWorks "T-CACHED" "2024-10-11" "2025-10-11",
         FetchCall.wikiSearch "Cached Topic",
         FetchCall.wikiPageviews "Cached Topic" "20241011" "20251011"]
    ∧ (computeRawIndicatorsForTopic false P_OK range0 T_FRESH).1.metrics.citedByCount = 1000 :=
  ⟨rfl, rfl, rfl, rfl, rfl, rfl⟩

/-! ### Claim C2 -/

/-- C2: evaluation of the code on a fetch failure.  With every provider call
failing for `T_BACK`, the updated document returned by `computeImpactForTopic`
has `metrics.backoffUntil = none` (no cooldown window is ever set),
`metrics.lastError = none` (no error text is recorded), and in fact an
entirely unchanged `metrics` snapshot; and a computation run immediately
afterwards on the updated document issues 3 provider calls (OpenAlex totals,
OpenAlex works, Wikipedia search), not zero.  The claim's backoff behaviour
(shared cooldown timestamp, recorded error text, fetch suppression) does not
exist in the code, although the schema declares the `backoffUntil` and
`lastError` fields for it. -/
theorem c2_backoff_code_behavior :
    P_FAIL.openAlexTopic "T1" = Except.error "OpenAlex down"
    ∧ ((computeImpactForTopic false P_FAIL range0 (fun _ => Except.ok ()) T_BACK).1.map
        (fun t => t.metrics.backoffUntil)) = some none
    ∧ ((computeImpactForTopic false P_FAIL range0 (fun _ => Except.ok ()) T_BACK).1.map
        (fun t => t.metrics.lastError)) = some none
    ∧ ((computeImpactForTopic false P_FAIL range0 (fun _ => Except.ok ()) T_BACK).1.map
        (fun t => t.metrics)) = some T_BACK.metrics
    ∧ (computeRawIndicatorsForTopic false P_FAIL range0
        (((computeImpactForTopic false P_FAIL range0 (fun _ => Except.ok ()) T_BACK).1).getD
          T_BACK)).2.length = 3 :=
  ⟨rfl, rfl, rfl, rfl, rfl⟩

/-! ### Claim C5 -/

/-- C5: the two raw composites produced by `computeRawIndicatorsForTopic` are
exactly the fixed-weight sums
`0.55*log10(citedByCount+1) + 0.25*log10(worksCount+1) + 0.20*log10(wikiViews12m+1)`
and
`0.45*log10(worksLast12m+1) + 0.35*log10(estimatedCitations12m+1) + 0.20*log10(wikiViews12m+1)`
of the resolved signal values, and when every resolved signal is zero both
composites are exactly `0`. -/
theorem c5_raw_composites (isTestEnv : Bool) (p : Provider) (range : DateRange)
    (t : Topic) :
    ((computeRawIndicatorsForTopic isTestEnv p range t).1.impactRaw
      = 0.55 * Real.logb 10
          (((computeRawIndicatorsForTopic isTestEnv p range t).1.metrics.citedByCount : ℝ) + 1)
      + 0.25 * Real.logb 10
          (((computeRawIndicatorsForTopic isTestEnv p range t).1.metrics.worksCount : ℝ) + 1)
      + 0.20 * Real.logb 10
          (((computeRawIndicatorsForTopic isTestEnv p range t).1.metrics.wikiViews12Months : ℝ) + 1))
    ∧ ((computeRawIndicatorsForTopic isTestEnv p range t).1.activityRaw
      = 0.45 * Real.logb 10
          (((computeRawIndicatorsForTopic isTestEnv p range t).1.metrics.worksLast12Months : ℝ) + 1)
      + 0.35 * Real.logb 10
          (((computeRawIndicatorsForTopic isTestEnv p range t).1.metrics.estimatedCitations12Months : ℝ) + 1)
      + 0.20 * Real.logb 10
          (((computeRawIndicatorsForTopic isTestEnv p range t).1.metrics.wikiViews12Months : ℝ) + 1))
    ∧ ((computeRawIndicatorsForTopic isTestEnv p range t).1.metrics = ⟨0, 0, 0, 0, 0⟩ →
        (computeRawIndicatorsForTopic isTestEnv p range t).1.impactRaw = 0
        ∧ (computeRawIndicatorsForTopic isTestEnv p range t).1.activityRaw = 0) := by
  refine ⟨?_, ?_, ?_⟩
  · simp only [computeRawIndicatorsForTopic, impactRawOf, log10p, INDICATOR_WEIGHTS]
    norm_num
  · simp only [computeRawIndicatorsForTopic, activityRawOf, log10p, INDICATOR_WEIGHTS]
    norm_num
  · intro h
    simp only [computeRawIndicatorsForTopic] at h ⊢
    rw [h]
    simp [impactRawOf, activityRawOf, log10p, INDICATOR_WEIGHTS, Real.logb_one]

/-- C5 witness: the topic `T_OBSCURE` (no external key) against a provider
whose title search finds nothing resolves every signal to `0`, and the
theorem yields raw composites of exactly `0`. -/
theorem c5_raw_composites_witness :
    (computeRawIndicatorsForTopic false P_NOTITLE range0 T_OBSCURE).1.impactRaw = 0
    ∧ (computeRawIndicatorsForTopic false P_NOTITLE range0 T_OBSCURE).1.activityRaw = 0 :=
  (c5_raw_composites false P_NOTITLE range0 T_OBSCURE).2.2 rfl

/-! ### Claim C6 -/

/-- C6: `estimateCitations12m` equals `citedByCount / worksCount * works12m`
when all three factors are non-zero, and is exactly `0` whenever any of them
is zero (absent inputs reach this function as `0` via the schema defaults and
the caller's zero-initialised locals). -/
theorem c6_estimate_citations :
    (∀ citedByCount worksCount works12m : ℚ,
      citedByCount ≠ 0 → worksCount ≠ 0 → works12m ≠ 0 →
      estimateCitations12m citedByCount worksCount works12m
        = citedByCount / worksCount * works12m)
    ∧ (∀ citedByCount worksCount works12m : ℚ,
      worksCount = 0 ∨ citedByCount = 0 ∨ works12m = 0 →
      estimateCitations12m citedByCount worksCount works12m = 0) := by
  constructor
  · intro c w r hc hw hr
    rw [estimateCitations12m, if_neg (by tauto)]
    ring
  · intro c w r h
    rw [estimateCitations12m, if_pos h]

/-- C6 witness: `estimateCitations12m 1000 100 20 = (1000/100)*20` and a zero
factor forces the result to `0`. -/
theorem c6_estimate_citations_witness :
    estimateCitations12m 1000 100 20 = 1000 / 100 * 20
    ∧ estimateCitations12m 1000 0 20 = 0 :=
  ⟨c6_estimate_citations.1 1000 100 20 (by norm_num) (by norm_num) (by norm_num),
   c6_estimate_citations.2 1000 0 20 (Or.inl rfl)⟩

/-! ### Claim C7 -/

/-- C7 counterexample: `T_STALE` carries a previously cached
`citedByCount = 500` in its metrics snapshot (a prior successful fetch), its
provider fetch now fails, yet the computation's signal input for that source
is `0`, not the prior cached value `500` — the code never consults
`topic.metrics`, so the "prior cached value" half of the claim is false. -/
theorem c7_counterexample :
    T_STALE.metrics.openalex.citedByCount = 500
    ∧ T_STALE.metrics.openalex.lastFetchedAt = some 1000
    ∧ P_FAIL.openAlexTopic "T1" = Except.error "OpenAlex down"
    ∧ (computeRawIndicatorsForTopic false P_FAIL range0 T_STALE).1.metrics.citedByCount = 0 :=
  ⟨rfl, rfl, rfl, rfl⟩

/-- C7 (amended): the per-topic computation never raises past its own
boundary — each fetch failure is caught inside it — and a failed source's
contribution to the composites is `0` (the zero-initialised local), prior
cached values not being consulted; the computation then still produces both
composites from the resolved signals. -/
theorem c7_fetch_failure_fallback :
    ∀ (p : Provider) (range : DateRange) (t : Topic) (id e : String),
      t.openalexID = some id → id ≠ "" →
      (p.openAlexTopic id = Except.error e →
        (computeRawIndicatorsForTopic false p range t).1.metrics.citedByCount = 0
        ∧ (computeRawIndicatorsForTopic false p range t).1.metrics.worksCount = 0)
      ∧ (p.openAlexWorksCount id range.startDate range.endDate = Except.error e →
        (computeRawIndicatorsForTopic false p range t).1.metrics.worksLast12Months = 0)
      ∧ (p.wikiSearch t.name = Except.error e →
        (computeRawIndicatorsForTopic false p range t).1.metrics.wikiViews12Months = 0)
      ∧ (computeRawIndicatorsForTopic false p range t).1.impactRaw
          = impactRawOf (computeRawIndicatorsForTopic false p range t).1.metrics
      ∧ (computeRawIndicatorsForTopic false p range t).1.activityRaw
          = activityRawOf (computeRawIndicatorsForTopic false p range t).1.metrics := by
  intro p range t id e hid hne
  refine ⟨?_, ?_, ?_, rfl, rfl⟩
  · intro herr
    simp [computeRawIndicatorsForTopic, resolveSignals, strTruthy, hid,
      fetchOpenAlexTopicMetrics, hne, herr]
  · intro herr
    simp [computeRawIndicatorsForTopic, resolveSignals, strTruthy, hid,
      fetchOpenAlexWorksCountLast12Months, hne, herr]
  · intro herr
    by_cases hname : t.name = ""
    · simp [computeRawIndicatorsForTopic, resolveSignals,
        fetchWikipediaViews12Months, hname]
    · simp [computeRawIndicatorsForTopic, resolveSignals,
        fetchWikipediaViews12Months, hname, herr]

/-- C7 witness: the amended theorem applied to `T_STALE` against the failing
provider: every failed source's signal resolves to `0`. -/
theorem c7_fetch_failure_fallback_witness :
    (computeRawIndicatorsForTopic false P_FAIL range0 T_STALE).1.metrics.citedByCount = 0
    ∧ (computeRawIndicatorsForTopic false P_FAIL range0 T_STALE).1.metrics.worksLast12Months = 0
    ∧ (computeRawIndicatorsForTopic false P_FAIL range0 T_STALE).1.metrics.wikiViews12Months = 0 :=
  ⟨((c7_fetch_failure_fallback P_FAIL range0 T_STALE "T1" "OpenAlex down"
      rfl (by decide)).1 rfl).1,
   (c7_fetch_failure_fallback P_FAIL range0 T_STALE "T1" "OpenAlex down"
      rfl (by decide)).2.1 rfl,
   (c7_fetch_failure_fallback P_FAIL range0 T_STALE "T1" "Wikipedia down"
      rfl (by decide)).2.2.1 rfl⟩


/-! ### Claim C3 -/

/-- C3 counterexample: the batch holds two topics both carrying the external
key `T1`, and the run's call trace contains the cumulative-totals fetch for
`T1` twice — there is no run-scoped deduplication, so "at most one external
fetch per unique lookup key" is false. -/
theorem c3_counterexample :
    S3.find = Except.ok [TA3, TB3]
    ∧ TA3.openalexID = some "T1"
    ∧ TB3.openalexID = some "T1"
    ∧ (computeImpactForAllTopics false P_OK range0 S3).calls.count
        (FetchCall.openAlexTopic "T1") = 2 :=
  ⟨rfl, rfl, rfl, rfl⟩

/-- C3 (amended): the batch entry point performs each topic's lookups
independently, with no run-scoped cache: the number of cumulative-totals
fetches issued for an external key equals the number of topics in the batch
that carry that key (so sharing a key multiplies the fetches instead of
deduplicating them). -/
theorem c3_no_dedup :
    ∀ (p : Provider) (range : DateRange) (store : Store) (topics : List Topic)
      (k : String),
      store.find = Except.ok topics → k ≠ "" →
      (computeImpactForAllTopics false p range store).calls.count
          (FetchCall.openAlexTopic k)
        = topics.countP (fun t => decide (t.openalexID = some k)) := by
  intro p range store topics k hfind hk
  simp only [computeImpactForAllTopics, hfind]
  rw [count_flatten_eq_sum]
  have hmap : (topics.map (fun t => (computeRawIndicatorsForTopic false p range t).2)).map
        (fun l => l.count (FetchCall.openAlexTopic k))
      = topics.map (fun t => if t.openalexID = some k then 1 else 0) := by
    rw [List.map_map]
    apply List.map_congr_left
    intro t _
    exact count_openAlexTopic_resolve p range t k hk
  rw [hmap, sum_map_ite_eq_countP]

/-- C3 witness: on the two-topic shared-key batch the amended theorem
evaluates to two fetches for the shared key `T1`. -/
theorem c3_no_dedup_witness :
    (computeImpactForAllTopics false P_OK range0 S3).calls.count
      (FetchCall.openAlexTopic "T1") = 2 := by
  have h := c3_no_dedup P_OK range0 S3 [TA3, TB3] "T1" rfl (by decide)
  rw [h]
  rfl

/-! ### Claim C8 -/

/-- C8 counterexample: in the two-topic batch `[T8A, T8B]` only `T8A`'s save
fails (the store accepts `T8B`), yet the run saves nothing at all: the save
failure is caught by the batch-level handler, which abandons the rest of the
save loop, so `T8B`'s write is also lost — not "only that one Topic's
write". -/
theorem c8_counterexample :
    S8.find = Except.ok [T8A, T8B]
    ∧ S8.save T8B = Except.ok ()
    ∧ (computeImpactForAllTopics false P_OK range0 S8).failed = some "disk full"
    ∧ (computeImpactForAllTopics false P_OK range0 S8).saved = [] :=
  ⟨rfl, rfl, rfl, rfl⟩

/-- C8 (amended): raw-composite computation cannot fail for provider reasons
(those are absorbed per topic), and the persisted documents of a batch are a
prefix of the normalized population: everything when no save fails, and on
the first failing save exactly the documents before it — the failing
document's write and every later document's write are lost for the run. -/
theorem c8_save_failure_cutoff :
    ∀ (p : Provider) (range : DateRange) (store : Store) (topics : List Topic),
      store.find = Except.ok topics →
      ((computeImpactForAllTopics false p range store).failed = none →
        (computeImpactForAllTopics false p range store).saved
          = normalizedTopics false p range topics)
      ∧ ((computeImpactForAllTopics false p range store).saved
          = (normalizedTopics false p range topics).take
              (computeImpactForAllTopics false p range store).saved.length)
      ∧ (∀ e, (computeImpactForAllTopics false p range store).failed = some e →
          ∃ t, (normalizedTopics false p range topics).get?
                (computeImpactForAllTopics false p range store).saved.length = some t
            ∧ store.save t = Except.error e) := by
  intro p range store topics hfind
  simp only [computeImpactForAllTopics, hfind]
  exact saveEntries_facts store.save (normalizedTopics false p range topics)

/-- C8 witness: the amended theorem applied to the failing-save batch: the
saved documents are the (here empty) prefix before the first failing save. -/
theorem c8_save_failure_cutoff_witness :
    (computeImpactForAllTopics false P_OK range0 S8).saved
      = (normalizedTopics false P_OK range0 [T8A, T8B]).take
          (computeImpactForAllTopics false P_OK range0 S8).saved.length :=
  (c8_save_failure_cutoff P_OK range0 S8 [T8A, T8B] rfl).2.1

/-! ### Claim C9 -/

/-- C9 counterexample: with a store whose population load fails, the batch
entry point returns normally — the error is caught by its own handler and
recorded (`failed`), nothing is computed or saved, and no error is re-raised
to the caller (the embedding's total return type mirrors the source's
catch-all around the whole body, source lines 255-257). -/
theorem c9_counterexample :
    SERR.find = Except.error "db down"
    ∧ (computeImpactForAllTopics false P_OK range0 SERR).failed = some "db down"
    ∧ (computeImpactForAllTopics false P_OK range0 SERR).saved = []
    ∧ (computeImpactForAllTopics false P_OK range0 SERR).calls = [] :=
  ⟨rfl, rfl, rfl, rfl⟩

/-- C9 (amended): a store failure while loading the population is fatal to
the batch — zero fetches, zero saves — but it is absorbed inside the entry
point (caught and logged), not re-raised to the caller/scheduler. -/
theorem c9_load_failure_absorbed :
    ∀ (isTestEnv : Bool) (p : Provider) (range : DateRange) (store : Store) (e : String),
      store.find = Except.error e →
      computeImpactForAllTopics isTestEnv p range store = ⟨[], [], some e⟩ := by
  intro te p range store e hfind
  simp only [computeImpactForAllTopics, hfind]

/-- C9 witness: the amended theorem applied to the failing store. -/
theorem c9_load_failure_absorbed_witness :
    computeImpactForAllTopics false P_OK range0 SERR = ⟨[], [], some "db down"⟩ :=
  c9_load_failure_absorbed false P_OK range0 SERR "db down" rfl

end BrightMinds
